import Mathlib

/-!
# Verification of the mixture_adapters routing core

Shallow embedding of the semantic-routing and adapter-activation code of the
`mixture_adapters` repository, together with theorems settling the frozen
claims about it.

Conventions of the embedding:
* numpy float arithmetic is modelled exactly over `ℚ`; `np.mean` is
  `sum / length`;
* `np.sqrt` (the one irrational primitive, used only inside
  `np.linalg.norm`) is an explicit parameter `sqrt : ℚ → ℚ` of every
  function that needs it — none of the claims depends on its values;
* a Python `dict` is an insertion-ordered association list
  (`List (String × α)`); assignment to an existing key keeps its position,
  assignment to a fresh key appends — exactly CPython semantics;
* a Python exception is an `Except` value that propagates; the distinct
  exception classes appearing in the source are the constructors of
  `PyError`.
-/

namespace MixtureAdapters

/-- An embedding vector (`np.ndarray` of floats, modelled over `ℚ`). -/
abbrev Vec := List ℚ

/-- `np.dot` on two vectors. -/
def dotProduct (v1 v2 : Vec) : ℚ :=
  (List.zipWith (fun a b => a * b) v1 v2).sum

/-- Sum of squares; `np.linalg.norm v = sqrt (normSq v)`. -/
def normSq (v : Vec) : ℚ :=
  dotProduct v v

/-- `np.mean` of a list of floats. -/
def listMean (l : List ℚ) : ℚ :=
  l.sum / (l.length : ℚ)

/-- `EmbeddingsGenerator.calculate_cosine_similarity` (src/utils/embeddings.py
lines 39-51): `np.dot(v1, v2) / (np.linalg.norm(v1) * np.linalg.norm(v2))`.
The division is unconditional — the source has no zero-norm guard. -/
def calculate_cosine_similarity (sqrt : ℚ → ℚ) (v1 v2 : Vec) : ℚ :=
  dotProduct v1 v2 / (sqrt (normSq v1) * sqrt (normSq v2))

/-- CPython dict assignment `d[k] = v` on an insertion-ordered association
list: an existing key keeps its position, a fresh key is appended. -/
def dictSet {α : Type} (l : List (String × α)) (k : String) (v : α) :
    List (String × α) :=
  if l.any (fun p => p.1 = k) then
    l.map (fun p => if p.1 = k then (k, v) else p)
  else
    l ++ [(k, v)]

/-- `AdapterRoute` (src/routing/route.py): a dataclass holding an adapter
name and its example utterances.  `__post_init__` only validates the Python
runtime types of the two fields, which is vacuous in a typed embedding; it
does not reject empty `training_utterances`. -/
structure AdapterRoute where
  adapter_name : String
  training_utterances : List String
deriving Repr, DecidableEq

/-- Mutable state of `SemanticRouter` (src/routing/router.py lines 15-28).
`score_window` and `default_adapter_name` are constants in `__init__` and are
modelled as the constants below. -/
structure RouterState where
  base_threshold : ℚ
  route_embeddings : List (String × List Vec)
  historical_scores : List ℚ
deriving Repr, DecidableEq

/-- `self.score_window = 10` (src/routing/router.py line 28). -/
def score_window : Nat := 10

/-- `self.default_adapter_name = "base"` (src/routing/router.py line 26). -/
def default_adapter_name : String := "base"

/-- `SemanticRouter.__init__` (src/routing/router.py lines 15-28): empty
registry, empty score history. -/
def initRouter (base_threshold : ℚ) : RouterState :=
  { base_threshold := base_threshold
    route_embeddings := []
    historical_scores := [] }

/-- `SemanticRouter.add_route` (src/routing/router.py lines 30-40): when the
route's utterance list is non-empty (Python truthiness of the list), store the
batch of utterance embeddings under the route's name; otherwise the method
falls through and does nothing — no exception is raised and the registry is
untouched. -/
def add_route (embed : String → Vec) (s : RouterState) (r : AdapterRoute) :
    RouterState :=
  match r.training_utterances with
  | [] => s
  | _ :: _ =>
      { s with route_embeddings := (dictSet s.route_embeddings r.adapter_name
          (r.training_utterances.map embed)) }

/-- Body of `SemanticRouter.calculate_similarities` after the query embedding
has been computed (src/routing/router.py lines 63-78): for each registered
adapter, skip it if its stored embedding list is empty, otherwise score it by
the mean cosine similarity against all of its reference embeddings.  Every
reference embedding participates — zero-norm vectors are not filtered out. -/
def calculate_similarities_core (sqrt : ℚ → ℚ) (query_embedding : Vec)
    (route_embeddings : List (String × List Vec)) : List (String × ℚ) :=
  route_embeddings.filterMap (fun p =>
    match p.2 with
    | [] => none
    | _ :: _ => some (p.1, listMean (p.2.map
        (fun emb => calculate_cosine_similarity sqrt query_embedding emb))))

/-- `SemanticRouter.calculate_similarities` (src/routing/router.py lines
52-78) with a total embedding collaborator. -/
def calculate_similarities (sqrt : ℚ → ℚ) (embed : String → Vec)
    (route_embeddings : List (String × List Vec)) (query : String) :
    List (String × ℚ) :=
  calculate_similarities_core sqrt (embed query) route_embeddings

/-- The Python exceptions that occur in the verified fragment. -/
inductive PyError where
  | attributeError (attr : String)
  | valueError (msg : String)
  | embeddingError (msg : String)
deriving Repr, DecidableEq

/-- `SemanticRouter.calculate_similarities` (src/routing/router.py lines
52-78) with a fallible embedding collaborator: the query embedding is
computed first (line 62) and an exception raised there propagates — the
method body contains no try/except. -/
def calculate_similaritiesE (sqrt : ℚ → ℚ)
    (embedE : String → Except PyError Vec)
    (route_embeddings : List (String × List Vec)) (query : String) :
    Except PyError (List (String × ℚ)) :=
  match embedE query with
  | Except.error e => Except.error e
  | Except.ok qv => Except.ok (calculate_similarities_core sqrt qv route_embeddings)

/-- `SemanticRouter.calculate_dynamic_threshold` (src/routing/router.py lines
80-105).  State passing makes the mutation of `historical_scores` explicit:
the empty map returns `base_threshold` and leaves the history alone; a
non-empty map pushes the mean of ALL of its values (the source takes
`similarities.values()` wholesale), evicts the oldest entry when the window
of 10 is exceeded, and returns the blended threshold together with the
updated state. -/
def calculate_dynamic_threshold (s : RouterState)
    (similarities : List (String × ℚ)) : ℚ × RouterState :=
  match similarities with
  | [] => (s.base_threshold, s)
  | _ :: _ =>
      let current_mean := listMean (similarities.map Prod.snd)
      let h1 := s.historical_scores ++ [current_mean]
      let h2 := if score_window < h1.length then h1.tail else h1
      let historical_mean := listMean h2
      ((historical_mean + s.base_threshold) / 2,
       { s with historical_scores := h2 })

/-- One step of CPython `max(items, key=lambda x: x[1])`: the accumulator is
replaced only when the candidate's key is strictly greater, so the first
maximal element of the iteration wins. -/
def pyMaxStep (acc q : String × ℚ) : String × ℚ :=
  if acc.2 < q.2 then q else acc

/-- CPython `max(l, key=lambda x: x[1])`, `none` on the empty list (where
Python would raise). -/
def pyMaxBySnd : List (String × ℚ) → Option (String × ℚ)
  | [] => none
  | p :: rest => some (rest.foldl pyMaxStep p)

/-- Decision part of `SemanticRouter.route_query_with_scores`
(src/routing/router.py lines 130-150), acting on an already computed
similarity map.  Empty map: report `{"base": 0.0}` and return the fallback
with the state untouched.  Otherwise: update the threshold state, take the
maximum-scoring entry (first wins ties), add the synthetic `"base": 0.0`
entry for logging, and fall back exactly when the best score is strictly
below the dynamic threshold. -/
def route_query_on_sims (s : RouterState) (sims : List (String × ℚ)) :
    String × List (String × ℚ) × RouterState :=
  match pyMaxBySnd sims with
  | none => (default_adapter_name, dictSet sims default_adapter_name 0, s)
  | some best =>
      let tr := calculate_dynamic_threshold s sims
      let simsOut := dictSet sims default_adapter_name 0
      if best.2 < tr.1 then (default_adapter_name, simsOut, tr.2)
      else (best.1, simsOut, tr.2)

/-- `SemanticRouter.route_query_with_scores` (src/routing/router.py lines
120-150) with a total embedding collaborator. -/
def route_query_with_scores (sqrt : ℚ → ℚ) (embed : String → Vec)
    (s : RouterState) (query : String) :
    String × List (String × ℚ) × RouterState :=
  route_query_on_sims s (calculate_similarities sqrt embed s.route_embeddings query)

/-- `SemanticRouter.route_query_with_scores` with a fallible embedding
collaborator: an exception from `calculate_similarities` propagates out of
the router unchanged. -/
def route_query_with_scoresE (sqrt : ℚ → ℚ)
    (embedE : String → Except PyError Vec) (s : RouterState) (query : String) :
    Except PyError (String × List (String × ℚ) × RouterState) :=
  match calculate_similaritiesE sqrt embedE s.route_embeddings query with
  | Except.error e => Except.error e
  | Except.ok sims => Except.ok (route_query_on_sims s sims)

/-- Router-state effect of `MixtureOfAdapters._log_routing_decision`
(src/main.py lines 210-247): line 223 calls
`self.router.calculate_dynamic_threshold(similarities)` again, on the map
that by then contains the synthetic `"base": 0.0` entry, so logging performs
a second history push. -/
def log_routing_decision (s : RouterState) (sims : List (String × ℚ)) :
    RouterState :=
  (calculate_dynamic_threshold s sims).2

/-- The methods defined by `class AdapterManager`
(src/core/adapter_manager.py lines 14-157), transcribed from the source.
Any other attribute access on an `AdapterManager` instance raises
`AttributeError` in Python. -/
def adapterManagerMethods : List String :=
  ["__init__", "load_adapter_from_hub", "load_adapter_from_directory",
   "load_adapters_from_directory", "load_adapters_from_hub",
   "set_active_adapter", "get_model"]

/-- Python attribute lookup on an `AdapterManager` instance, restricted to
methods: succeeds exactly for the names in `adapterManagerMethods`. -/
def adapterManagerHasAttr (attr : String) : Bool :=
  adapterManagerMethods.contains attr

/-- `AdapterManager.set_active_adapter` (src/core/adapter_manager.py lines
143-153): a name other than `"base"` must be among the loaded adapters, else
`ValueError`; the name `"base"` is silently accepted without touching the
backend. `loaded_adapters` is the manager's dict of loaded adapter names. -/
def set_active_adapter (loaded_adapters : List String)
    (adapter_name : String) : Except PyError Unit :=
  if adapter_name ≠ "base" then
    if loaded_adapters.contains adapter_name then Except.ok ()
    else Except.error (PyError.valueError ("Adapter " ++ adapter_name ++ " not loaded"))
  else
    Except.ok ()

/-- The state of a `MixtureOfAdapters` instance (src/main.py) relevant to
the claims: its router, the adapter manager's loaded-adapter names, the
`verbose` flag, and the shared `current_adapter` field. -/
structure SystemState where
  router : RouterState
  loaded_adapters : List String
  verbose : Bool
  current_adapter : Option String
deriving Repr, DecidableEq

/-- `MixtureOfAdapters.generate_response` (src/main.py lines 249-288) up to
and including adapter activation, with the generated text abstracted as the
parameter `response`.  Order of effects, as in the source: route the query
(one threshold/history update inside `route_query_with_scores`); when
`verbose`, `_log_routing_decision` re-runs the threshold computation (a
second history update); then, on the fallback path, line 273 calls
`self.adapter_manager.disable_all_adapters()` — an attribute lookup that
must succeed for generation to be reached — and on the adapter path
`set_active_adapter` is called.  An exception leaves the already performed
state mutations in place, as in Python. -/
def generate_response (sqrt : ℚ → ℚ) (embedE : String → Except PyError Vec)
    (response : String) (st : SystemState) (query : String) :
    SystemState × Except PyError String :=
  match route_query_with_scoresE sqrt embedE st.router query with
  | Except.error e => (st, Except.error e)
  | Except.ok (adapter_name, sims, router1) =>
      let router2 := if st.verbose then log_routing_decision router1 sims else router1
      let st1 := { st with router := router2 }
      if adapter_name = default_adapter_name then
        if adapterManagerHasAttr "disable_all_adapters" then
          ({ st1 with current_adapter := some adapter_name }, Except.ok response)
        else
          (st1, Except.error (PyError.attributeError "disable_all_adapters"))
      else
        match set_active_adapter st1.loaded_adapters adapter_name with
        | Except.error e => (st1, Except.error e)
        | Except.ok _ =>
            ({ st1 with current_adapter := some adapter_name }, Except.ok response)

/-- `fastapi.HTTPException` as raised by the server. -/
structure HTTPException where
  status_code : Nat
  detail : String
deriving Repr, DecidableEq

/-- `str(e)` for the exceptions of the embedding. -/
def pyErrorStr : PyError → String
  | PyError.attributeError a =>
      "'AdapterManager' object has no attribute '" ++ a ++ "'"
  | PyError.valueError m => m
  | PyError.embeddingError m => m

/-- The non-streaming path of the `/generate` endpoint
(src/api/server.py lines 54-84): run `generate_response`; any exception is
converted by the `except Exception` handler into
`HTTPException(status_code=500, detail=str(e))`, otherwise the response body
carries the content and the current adapter name (`or "base"`). -/
def generateEndpoint (sqrt : ℚ → ℚ) (embedE : String → Except PyError Vec)
    (response : String) (st : SystemState) (query : String) :
    Except HTTPException (String × String) :=
  match generate_response sqrt embedE response st query with
  | (_, Except.error e) =>
      Except.error { status_code := 500, detail := pyErrorStr e }
  | (st1, Except.ok content) =>
      Except.ok (content, st1.current_adapter.getD "base")

/-!
## Interleaving model of concurrent `generate_response` calls

The adapter-identity effects of one request are: write the shared
active-adapter state (`AdapterManager.set_active_adapter`, src/main.py line
276 → src/core/adapter_manager.py line 153), then run generation, which uses
whatever adapter the shared backend holds at that moment (src/main.py lines
282-285; generation awaits, so other requests run in between).  There is no
lock anywhere in the source, so any interleaving of these steps across
requests is possible.
-/

/-- Per-request progress: `pc = 0` before activation, `1` after activation
and before generation, `2` done; `observed` records which adapter the shared
backend held when this request's generation ran. -/
structure ReqState where
  pc : Nat
  observed : Option String
deriving Repr, DecidableEq

/-- Shared world for two in-flight requests: the single mutable
active-adapter field of the shared backend, and the two requests. -/
structure GateWorld where
  current_adapter : Option String
  req0 : ReqState
  req1 : ReqState
deriving Repr, DecidableEq

/-- Both requests about to start, nothing active. -/
def initWorld : GateWorld :=
  { current_adapter := none
    req0 := { pc := 0, observed := none }
    req1 := { pc := 0, observed := none } }

/-- One step of a single request targeting `target`, given the shared
active-adapter field: activation writes the shared field; generation reads
it.  Returns the new shared field and the new request state. -/
def reqStep (target : String) (current : Option String) (r : ReqState) :
    Option String × ReqState :=
  match r.pc with
  | 0 => (some target, { r with pc := 1 })
  | 1 => (current, { pc := 2, observed := current })
  | _ => (current, r)

/-- Scheduler step: `false` runs request 0 (target `t0`), `true` runs
request 1 (target `t1`). -/
def schedStep (t0 t1 : String) (w : GateWorld) (choice : Bool) : GateWorld :=
  if choice then
    let s := reqStep t1 w.current_adapter w.req1
    { w with current_adapter := s.1, req1 := s.2 }
  else
    let s := reqStep t0 w.current_adapter w.req0
    { w with current_adapter := s.1, req0 := s.2 }

/-- Run a schedule (list of scheduler choices) from a world. -/
def runSched (t0 t1 : String) (w : GateWorld) (sched : List Bool) : GateWorld :=
  sched.foldl (schedStep t0 t1) w

/-- The last `n` elements of a list (specification-side formulation of the
bounded history window). -/
def lastN (n : Nat) (l : List ℚ) : List ℚ :=
  l.drop (l.length - n)

/-- The operations of the source that can touch a `SemanticRouter`'s state:
`add_route` (src/routing/router.py line 30), a routed query
(`route_query_with_scores`, line 120), the logging re-computation
(`MixtureOfAdapters._log_routing_decision`, src/main.py line 223), and a bare
`calculate_dynamic_threshold` call (line 80). -/
inductive RouterOp where
  | addRouteOp (r : AdapterRoute)
  | routeQueryOp (q : String)
  | logOp (sims : List (String × ℚ))
  | thresholdOp (sims : List (String × ℚ))

/-- Apply one router operation to the router state. -/
def applyOp (sqrt : ℚ → ℚ) (embed : String → Vec) (s : RouterState) :
    RouterOp → RouterState
  | RouterOp.addRouteOp r => add_route embed s r
  | RouterOp.routeQueryOp q => (route_query_with_scores sqrt embed s q).2.2
  | RouterOp.logOp sims => log_routing_decision s sims
  | RouterOp.thresholdOp sims => (calculate_dynamic_threshold s sims).2

/-- Run a sequence of router operations. -/
def runOps (sqrt : ℚ → ℚ) (embed : String → Vec) (s : RouterState)
    (ops : List RouterOp) : RouterState :=
  ops.foldl (applyOp sqrt embed) s

/-!
## Concrete collaborators and states used by witnesses and counterexamples
-/

/-- A concrete stand-in for the `np.sqrt` collaborator (its values are
irrelevant to every claim below). -/
def wSqrt : ℚ → ℚ := fun x => x

/-- A concrete embedding collaborator sending every text to `[1]`. -/
def wEmbed : String → Vec := fun _ => [1]

/-- A concrete embedding collaborator sending every text to `[1, 1]`. -/
def wEmbed2 : String → Vec := fun _ => [1, 1]

/-- A router with one registered adapter `"math"`. -/
def wStateMath : RouterState :=
  { base_threshold := 0, route_embeddings := [("math", [[1]])], historical_scores := [] }

/-- A router with one registered adapter `"a"`. -/
def wStateA : RouterState :=
  { base_threshold := 0, route_embeddings := [("a", [[1]])], historical_scores := [] }

/-- A router with two adapters `"a"` and `"b"` registered in that order. -/
def wStateAB : RouterState :=
  { base_threshold := 0, route_embeddings := [("a", [[1]]), ("b", [[1]])], historical_scores := [] }

/-- An empty-registry router (what `__init__` with the default threshold of
the server config builds). -/
def wStateEmpty : RouterState := initRouter 1

/-- A verbose system around `wStateA` with adapter `"a"` loaded. -/
def wSysA : SystemState :=
  { router := wStateA, loaded_adapters := ["a"], verbose := true, current_adapter := none }

/-- A non-verbose system with an empty registry and no loaded adapters. -/
def wSysEmpty : SystemState :=
  { router := wStateEmpty, loaded_adapters := [], verbose := false, current_adapter := none }

/-!
## Helper lemmas about the threshold state
-/

/-- The empty similarity map leaves the threshold state untouched. -/
theorem thresh_empty (s : RouterState) :
    calculate_dynamic_threshold s [] = (s.base_threshold, s) :=
  rfl

/-- `lastN` of a list no longer than the window is the whole list. -/
theorem lastN_of_length_le (n : Nat) (l : List ℚ) (h : l.length ≤ n) :
    lastN n l = l := by
  unfold lastN
  have h0 : l.length - n = 0 := by omega
  rw [h0, List.drop_zero]

/-- `lastN` never exceeds the window. -/
theorem lastN_length_le (n : Nat) (l : List ℚ) : (lastN n l).length ≤ n := by
  unfold lastN
  rw [List.length_drop]
  omega

/-- The source's append-then-pop update of the history equals keeping the
last `score_window` entries, provided the history respected the bound
before. -/
theorem window_tail_eq (hist : List ℚ) (m : ℚ)
    (hlen : hist.length ≤ score_window) :
    (if score_window < (hist ++ [m]).length then (hist ++ [m]).tail
     else hist ++ [m]) = lastN score_window (hist ++ [m]) := by
  by_cases hlt : score_window < (hist ++ [m]).length
  · rw [if_pos hlt]
    have hl : (hist ++ [m]).length - score_window = 1 := by
      rw [List.length_append] at hlt ⊢
      simp only [List.length_singleton] at hlt ⊢
      omega
    unfold lastN
    rw [hl, List.drop_one]
  · rw [if_neg hlt]
    have hl : (hist ++ [m]).length - score_window = 0 := by omega
    unfold lastN
    rw [hl, List.drop_zero]

/-- A non-empty similarity map pushes the mean of all its scores and trims
the history to the last `score_window` entries. -/
theorem thresh_push (s : RouterState) (sims : List (String × ℚ))
    (hs : sims ≠ []) (hlen : s.historical_scores.length ≤ score_window) :
    calculate_dynamic_threshold s sims =
      ((listMean (lastN score_window
          (s.historical_scores ++ [listMean (sims.map Prod.snd)])) + s.base_threshold) / 2,
       { s with historical_scores := (lastN score_window
          (s.historical_scores ++ [listMean (sims.map Prod.snd)])) }) := by
  cases sims with
  | nil => exact absurd rfl hs
  | cons p rest =>
      show ((listMean (if score_window < (s.historical_scores ++ [listMean ((p :: rest).map Prod.snd)]).length
          then (s.historical_scores ++ [listMean ((p :: rest).map Prod.snd)]).tail
          else s.historical_scores ++ [listMean ((p :: rest).map Prod.snd)]) + s.base_threshold) / 2, _) = _
      rw [window_tail_eq s.historical_scores (listMean ((p :: rest).map Prod.snd)) hlen]

/-- The threshold update preserves the history bound. -/
theorem thresh_hist_len (s : RouterState) (sims : List (String × ℚ))
    (h : s.historical_scores.length ≤ score_window) :
    ((calculate_dynamic_threshold s sims).2).historical_scores.length ≤ score_window := by
  cases sims with
  | nil => exact h
  | cons p rest =>
      rw [thresh_push s (p :: rest) (by simp) h]
      exact lastN_length_le score_window _

/-- `add_route` never touches the score history. -/
theorem add_route_hist (embed : String → Vec) (s : RouterState) (r : AdapterRoute) :
    (add_route embed s r).historical_scores = s.historical_scores := by
  obtain ⟨n, u⟩ := r
  cases u with
  | nil => rfl
  | cons a t => rfl

/-- The router state coming out of the routing decision is exactly the
threshold-updated state (the empty map leaves it unchanged on both sides). -/
theorem route_on_sims_state (s : RouterState) (sims : List (String × ℚ)) :
    (route_query_on_sims s sims).2.2 = (calculate_dynamic_threshold s sims).2 := by
  cases sims with
  | nil => rfl
  | cons p rest =>
      simp only [route_query_on_sims, pyMaxBySnd]
      split <;> rfl

/-- Every router operation preserves the history bound. -/
theorem applyOp_hist_len (sqrt : ℚ → ℚ) (embed : String → Vec)
    (s : RouterState) (op : RouterOp)
    (h : s.historical_scores.length ≤ score_window) :
    (applyOp sqrt embed s op).historical_scores.length ≤ score_window := by
  cases op with
  | addRouteOp r =>
      show (add_route embed s r).historical_scores.length ≤ score_window
      rw [add_route_hist]
      exact h
  | routeQueryOp q =>
      show ((route_query_on_sims s _).2.2).historical_scores.length ≤ score_window
      rw [route_on_sims_state]
      exact thresh_hist_len s _ h
  | logOp sims => exact thresh_hist_len s sims h
  | thresholdOp sims => exact thresh_hist_len s sims h

/-- Any run of router operations preserves the history bound. -/
theorem runOps_hist_len (sqrt : ℚ → ℚ) (embed : String → Vec)
    (s : RouterState) (ops : List RouterOp)
    (h : s.historical_scores.length ≤ score_window) :
    (runOps sqrt embed s ops).historical_scores.length ≤ score_window := by
  induction ops generalizing s with
  | nil => exact h
  | cons op rest ih => exact ih (applyOp sqrt embed s op) (applyOp_hist_len sqrt embed s op h)

/-!
## Claim C1 — serialization of adapter activation across concurrent requests

The claim asserts that each request's activation/generation/release is one
serialized critical section so that no two concurrent requests use the shared
backend under different adapter names.  The source has no lock or gate, so
the interleaving in which request 0 activates its adapter, request 1 then
activates a different one, and request 0 only then generates, makes request 0
generate under request 1's adapter.
-/

/-- Claim C1, counterexample: under the schedule
request 0 activates, request 1 activates, request 0 generates, request 1
generates, request 0 (targeting `"a"`) completes its generation while the
shared backend holds request 1's adapter `"b"` — two concurrent requests are
inside their activation-to-generation window under different adapter names,
so the claimed serialization invariant is false for the code. -/
theorem claim_C1_counterexample :
    (runSched "a" "b" initWorld [false, true, false, true]).req0.pc = 2 ∧
    (runSched "a" "b" initWorld [false, true, false, true]).req0.observed = some "b" ∧
    some "b" ≠ some "a" :=
  ⟨rfl, rfl, by decide⟩

/-- Claim C1, amended: the source serializes nothing — adapter identity lives
only in the shared mutable active-adapter state, and for any two distinct
target adapters there is an interleaving of two concurrent requests in which
both requests finish but request 0's generation runs under the other
request's adapter. -/
theorem claim_C1 (t0 t1 : String) (h : t0 ≠ t1) :
    ∃ sched : List Bool,
      (runSched t0 t1 initWorld sched).req0.pc = 2 ∧
      (runSched t0 t1 initWorld sched).req1.pc = 2 ∧
      (runSched t0 t1 initWorld sched).req0.observed ≠ some t0 := by
  refine ⟨[false, true, false, true], rfl, rfl, ?_⟩
  have hobs : (runSched t0 t1 initWorld [false, true, false, true]).req0.observed = some t1 := rfl
  rw [hobs]
  intro hcontra
  exact h (Option.some.inj hcontra).symm

/-- Witness for the amended claim C1 at the concrete targets
`"alpha"` and `"beta"`. -/
theorem claim_C1_witness :
    ("alpha" : String) ≠ "beta" ∧
    ∃ sched : List Bool,
      (runSched "alpha" "beta" initWorld sched).req0.pc = 2 ∧
      (runSched "alpha" "beta" initWorld sched).req1.pc = 2 ∧
      (runSched "alpha" "beta" initWorld sched).req0.observed ≠ some "alpha" :=
  ⟨by decide, claim_C1 "alpha" "beta" (by decide)⟩

/-!
## Claim C4 — zero-norm reference embeddings

The claim asserts zero-norm reference embeddings are excluded from an
adapter's mean and that an adapter whose references all have zero norm gets
no entry in the similarity map.  `calculate_cosine_similarity` divides by the
product of the norms unconditionally and `calculate_similarities` maps it
over every stored reference, so no exclusion happens anywhere.
-/

/-- Claim C4, counterexample: an adapter `"zero"` whose only reference
embedding is the zero vector (norm 0) still receives an entry in the
similarity map — the claim says it would be omitted. -/
theorem claim_C4_counterexample :
    "zero" ∈ (calculate_similarities wSqrt wEmbed2 [("zero", [[0, 0]])] "q").map Prod.fst := by
  simp [calculate_similarities, calculate_similarities_core]

/-- Claim C4, amended: no reference embedding is excluded — every registered
adapter with a non-empty reference list (zero-norm references included)
receives an entry in the similarity map, whose score is the mean of the
unconditional cosine quotients over ALL of its references. -/
theorem claim_C4 (sqrt : ℚ → ℚ) (embed : String → Vec)
    (re : List (String × List Vec)) (query : String)
    (name : String) (embs : List Vec)
    (hmem : (name, embs) ∈ re) (hne : embs ≠ []) :
    (name, listMean (embs.map
        (fun emb => calculate_cosine_similarity sqrt (embed query) emb))) ∈
      calculate_similarities sqrt embed re query := by
  unfold calculate_similarities calculate_similarities_core
  induction re with
  | nil => cases hmem
  | cons p t ih =>
      rcases List.mem_cons.mp hmem with hp | ht
      · subst hp
        cases hembs : embs with
        | nil => exact absurd hembs hne
        | cons v vs =>
            subst hembs
            simp [List.filterMap_cons]
      · cases hpe : p.2 with
        | nil =>
            rw [List.filterMap_cons, hpe]
            exact ih ht
        | cons v vs =>
            rw [List.filterMap_cons, hpe]
            exact List.mem_cons_of_mem _ (ih ht)

/-- Witness for the amended claim C4 at the all-zero-norm adapter of the
counterexample. -/
theorem claim_C4_witness :
    (("zero", [[(0 : ℚ), 0]]) ∈ [("zero", [[(0 : ℚ), 0]])]) ∧
    ([[(0 : ℚ), 0]] : List Vec) ≠ [] ∧
    ("zero", listMean ([[(0 : ℚ), 0]].map
        (fun emb => calculate_cosine_similarity wSqrt (wEmbed2 "q") emb))) ∈
      calculate_similarities wSqrt wEmbed2 [("zero", [[0, 0]])] "q" :=
  ⟨by simp, by simp,
   claim_C4 wSqrt wEmbed2 [("zero", [[0, 0]])] "q" "zero" [[0, 0]] (by simp) (by simp)⟩

/-!
## Claim C5 — embedding failure during routing

The claim asserts that an embedding failure makes the router fall back to
`"base"` and the request still completes.  In the source,
`calculate_similarities` has no exception handler, so the failure propagates
out of the router, and the server's `except Exception` handler turns it into
an HTTP 500 — the request fails and no fallback happens.
-/

/-- Claim C5, counterexample: with an embedding collaborator that fails, the
router propagates the failure instead of returning the fallback `"base"`,
and the `/generate` endpoint answers HTTP 500 instead of completing the
request. -/
theorem claim_C5_counterexample :
    route_query_with_scoresE wSqrt
        (fun _ => Except.error (PyError.embeddingError "embedding model failure"))
        wStateA "hi" =
      Except.error (PyError.embeddingError "embedding model failure") ∧
    generateEndpoint wSqrt
        (fun _ => Except.error (PyError.embeddingError "embedding model failure"))
        "resp" wSysA "hi" =
      Except.error { status_code := 500, detail := "embedding model failure" } :=
  ⟨rfl, rfl⟩

/-- Claim C5, amended: an embedding failure while routing propagates
unchanged out of the router (no fallback to `"base"` happens), and the
non-streaming `/generate` endpoint converts it into an HTTP 500 error, so
the whole request fails. -/
theorem claim_C5 (sqrt : ℚ → ℚ) (embedE : String → Except PyError Vec)
    (response : String) (st : SystemState) (query : String) (e : PyError)
    (h : embedE query = Except.error e) :
    route_query_with_scoresE sqrt embedE st.router query = Except.error e ∧
    generateEndpoint sqrt embedE response st query =
      Except.error { status_code := 500, detail := pyErrorStr e } := by
  have h1 : route_query_with_scoresE sqrt embedE st.router query = Except.error e := by
    unfold route_query_with_scoresE calculate_similaritiesE
    rw [h]
  refine ⟨h1, ?_⟩
  unfold generateEndpoint generate_response
  rw [h1]

/-- Witness for the amended claim C5 at a concrete failing collaborator. -/
theorem claim_C5_witness :
    ((fun _ => Except.error (PyError.embeddingError "boom") :
        String → Except PyError Vec) "hello" =
      Except.error (PyError.embeddingError "boom")) ∧
    (route_query_with_scoresE wSqrt (fun _ => Except.error (PyError.embeddingError "boom"))
        wSysEmpty.router "hello" =
      Except.error (PyError.embeddingError "boom") ∧
    generateEndpoint wSqrt (fun _ => Except.error (PyError.embeddingError "boom"))
        "resp" wSysEmpty "hello" =
      Except.error { status_code := 500, detail := pyErrorStr (PyError.embeddingError "boom") }) :=
  ⟨rfl, claim_C5 wSqrt (fun _ => Except.error (PyError.embeddingError "boom"))
    "resp" wSysEmpty "hello" (PyError.embeddingError "boom") rfl⟩

/-!
## Claim C6 — registering a route with no utterances

The claim asserts that registering a route with an empty utterance list
fails with an `InvalidRoute` error.  In the source, `AdapterRoute.__post_init__`
only checks the runtime types of the fields, and `SemanticRouter.add_route`
guards its whole body with `if route.training_utterances:` — an empty list
makes the method do nothing and return normally, so the route is silently
ignored, not rejected.
-/

/-- Claim C6, counterexample: registering the empty-utterance route
`("empty", [])` returns normally with the registry unchanged — `add_route`
raises nothing (its embedding is a total function into `RouterState`, because
the source method has no failure path), so the claimed `InvalidRoute` error
does not exist and the route is exactly "silently ignored". -/
theorem claim_C6_counterexample :
    add_route wEmbed wStateMath { adapter_name := "empty", training_utterances := [] } =
      wStateMath :=
  rfl

/-- Claim C6, amended: registering a route whose utterance list is empty is
silently ignored — the call returns normally (no error of any kind) and
leaves the router state, registry included, unchanged. -/
theorem claim_C6 (embed : String → Vec) (s : RouterState) (r : AdapterRoute)
    (h : r.training_utterances = []) :
    add_route embed s r = s := by
  obtain ⟨n, u⟩ := r
  dsimp only at h
  subst h
  rfl

/-- Witness for the amended claim C6 at a concrete empty route. -/
theorem claim_C6_witness :
    (AdapterRoute.mk "w" []).training_utterances = ([] : List String) ∧
    add_route wEmbed wStateAB { adapter_name := "w", training_utterances := [] } = wStateAB :=
  ⟨rfl, claim_C6 wEmbed wStateAB { adapter_name := "w", training_utterances := [] } rfl⟩

/-!
## Claim C10 — the fallback path of generate_response

`MixtureOfAdapters.generate_response` (src/main.py line 273) calls
`self.adapter_manager.disable_all_adapters()` whenever the routing decision
is `"base"`, but `class AdapterManager` defines no method of that name
(src/core/adapter_manager.py lines 14-157), so the attribute lookup raises
`AttributeError` before any generation happens.
-/

/-- Claim C10: whenever the routing decision for a query is the fallback
`"base"`, `generate_response` raises
`AttributeError: disable_all_adapters` — `"disable_all_adapters"` is not
among the methods `AdapterManager` defines — and no generated output is
produced. -/
theorem claim_C10 (sqrt : ℚ → ℚ) (embedE : String → Except PyError Vec)
    (response : String) (st : SystemState) (query : String)
    (sims : List (String × ℚ)) (r1 : RouterState)
    (hroute : route_query_with_scoresE sqrt embedE st.router query =
      Except.ok (default_adapter_name, sims, r1)) :
    (generate_response sqrt embedE response st query).2 =
      Except.error (PyError.attributeError "disable_all_adapters") := by
  unfold generate_response
  rw [hroute]
  have hattr : adapterManagerHasAttr "disable_all_adapters" = false := by decide
  simp [hattr, default_adapter_name]

/-- Witness for claim C10: a query against the empty registry routes to
`"base"` and `generate_response` fails with the `AttributeError`. -/
theorem claim_C10_witness :
    route_query_with_scoresE wSqrt (fun q => Except.ok (wEmbed q)) wSysEmpty.router "hi" =
      Except.ok (default_adapter_name, [("base", 0)], wStateEmpty) ∧
    (generate_response wSqrt (fun q => Except.ok (wEmbed q)) "resp" wSysEmpty "hi").2 =
      Except.error (PyError.attributeError "disable_all_adapters") :=
  ⟨rfl, claim_C10 wSqrt (fun q => Except.ok (wEmbed q)) "resp" wSysEmpty "hi"
    [("base", 0)] wStateEmpty rfl⟩

/-!
## Claim C3 — the threshold computation

The claim says a non-empty map pushes the mean of the map's NON-FALLBACK
scores.  The source takes `similarities.values()` wholesale
(src/routing/router.py line 94); the logging path hands it a map that
contains the synthetic `"base": 0.0` entry, which therefore enters the
pushed mean, contradicting the claim.
-/

/-- Claim C3, counterexample: on the (reachable, via
`_log_routing_decision`) map `{"a": 1, "base": 0}` the computation pushes
`mean(1, 0) = 1/2`, not the non-fallback mean `1` the claim requires. -/
theorem claim_C3_counterexample :
    (calculate_dynamic_threshold { base_threshold := 1/2, route_embeddings := [], historical_scores := [] }
        [("a", 1), ("base", 0)]).2.historical_scores = [1/2] ∧
    listMean ((([("a", (1 : ℚ)), ("base", 0)].filter
        (fun p => p.1 != "base")).map Prod.snd)) = 1 ∧
    ((1 : ℚ)/2) ≠ 1 := by
  refine ⟨?_, ?_, by norm_num⟩
  · norm_num [calculate_dynamic_threshold, listMean, score_window]
  · have hf : List.filter (fun p => p.1 != "base") [("a", (1 : ℚ)), ("base", 0)] = [("a", 1)] := rfl
    rw [hf]
    norm_num [listMean]

/-- Claim C3, amended: given a non-empty similarity map, one threshold
computation pushes the mean of ALL of the map's scores (a fallback entry, when
present, included) onto the history, keeps only the last 10 entries, and
returns `(historical_mean + base_threshold) / 2` over the post-push history;
given an empty map it returns `base_threshold` with the history unchanged. -/
theorem claim_C3 (s : RouterState) (sims : List (String × ℚ))
    (hlen : s.historical_scores.length ≤ score_window) :
    (sims = [] → calculate_dynamic_threshold s sims = (s.base_threshold, s)) ∧
    (sims ≠ [] →
      calculate_dynamic_threshold s sims =
        ((listMean (lastN score_window
            (s.historical_scores ++ [listMean (sims.map Prod.snd)])) + s.base_threshold) / 2,
         { s with historical_scores := (lastN score_window
            (s.historical_scores ++ [listMean (sims.map Prod.snd)])) })) := by
  constructor
  · intro h
    subst h
    rfl
  · intro h
    exact thresh_push s sims h hlen

/-- Witness for the amended claim C3 at the map `{"a": 1, "base": 0}` and an
empty starting history. -/
theorem claim_C3_witness :
    (([] : List ℚ).length ≤ score_window) ∧
    (([("a", (1 : ℚ)), ("base", 0)] = ([] : List (String × ℚ)) →
      calculate_dynamic_threshold { base_threshold := 1, route_embeddings := [], historical_scores := [] }
          [("a", 1), ("base", 0)] = (1, { base_threshold := 1, route_embeddings := [], historical_scores := [] })) ∧
    ([("a", (1 : ℚ)), ("base", 0)] ≠ ([] : List (String × ℚ)) →
      calculate_dynamic_threshold { base_threshold := 1, route_embeddings := [], historical_scores := [] }
          [("a", 1), ("base", 0)] =
        ((listMean (lastN score_window
            (([] : List ℚ) ++ [listMean ([("a", (1 : ℚ)), ("base", 0)].map Prod.snd)])) + 1) / 2,
         { base_threshold := 1, route_embeddings := [], historical_scores := (lastN score_window
            (([] : List ℚ) ++ [listMean ([("a", (1 : ℚ)), ("base", 0)].map Prod.snd)])) }))) :=
  ⟨by decide,
   claim_C3 { base_threshold := 1, route_embeddings := [], historical_scores := [] }
     [("a", 1), ("base", 0)] (by decide)⟩

/-!
## Claim C9 — the history bound

Every operation the source ever performs on the router keeps the score
history at no more than 10 entries: the only mutation appends one element
and pops the head as soon as the length exceeds the window.
-/

/-- Claim C9: starting from a freshly initialized router, any sequence of
router operations (route additions, routed queries, logging re-computations,
bare threshold calls) leaves the historical-score sequence with at most 10
entries. -/
theorem claim_C9 (sqrt : ℚ → ℚ) (embed : String → Vec) (bt : ℚ)
    (ops : List RouterOp) :
    (runOps sqrt embed (initRouter bt) ops).historical_scores.length ≤ score_window :=
  runOps_hist_len sqrt embed (initRouter bt) ops (Nat.zero_le score_window)

/-!
## Helper lemmas about the maximum selection `max(items, key=...)`
-/

/-- One `pyMaxStep` returns one of its two arguments. -/
theorem pyMaxStep_eq_or (p q : String × ℚ) :
    pyMaxStep p q = p ∨ pyMaxStep p q = q := by
  unfold pyMaxStep
  split
  · exact Or.inr rfl
  · exact Or.inl rfl

/-- The accumulator never decreases. -/
theorem le_pyMaxStep_left (p q : String × ℚ) : p.2 ≤ (pyMaxStep p q).2 := by
  unfold pyMaxStep
  split
  · exact le_of_lt (by assumption)
  · exact le_refl _

/-- The candidate never beats the step's result. -/
theorem le_pyMaxStep_right (p q : String × ℚ) : q.2 ≤ (pyMaxStep p q).2 := by
  unfold pyMaxStep
  split
  · exact le_refl _
  · exact le_of_not_lt (by assumption)

/-- The fold's result is one of the scanned elements. -/
theorem foldl_pyMaxStep_mem (rest : List (String × ℚ)) :
    ∀ p, rest.foldl pyMaxStep p ∈ p :: rest := by
  induction rest with
  | nil => intro p; simp [List.foldl]
  | cons q t ih =>
      intro p
      rw [List.foldl_cons]
      rcases List.mem_cons.mp (ih (pyMaxStep p q)) with h | h
      · rw [h]
        rcases pyMaxStep_eq_or p q with h2 | h2 <;> rw [h2] <;> simp
      · exact List.mem_cons_of_mem _ (List.mem_cons_of_mem _ h)

/-- The fold's result dominates every scanned element. -/
theorem foldl_pyMaxStep_ge (rest : List (String × ℚ)) :
    ∀ p, ∀ x ∈ p :: rest, x.2 ≤ (rest.foldl pyMaxStep p).2 := by
  induction rest with
  | nil =>
      intro p x hx
      rcases List.mem_cons.mp hx with h | h
      · rw [h]
        exact le_refl _
      · cases h
  | cons q t ih =>
      intro p x hx
      rw [List.foldl_cons]
      rcases List.mem_cons.mp hx with h | h
      · rw [h]
        exact le_trans (le_pyMaxStep_left p q) (ih (pyMaxStep p q) _ (List.mem_cons_self _ _))
      · rcases List.mem_cons.mp h with h2 | h2
        · rw [h2]
          exact le_trans (le_pyMaxStep_right p q) (ih (pyMaxStep p q) _ (List.mem_cons_self _ _))
        · exact ih (pyMaxStep p q) x (List.mem_cons_of_mem _ h2)

/-- When nothing scanned beats the accumulator, the fold keeps it. -/
theorem foldl_pyMaxStep_keep (l : List (String × ℚ)) :
    ∀ p, (∀ x ∈ l, x.2 ≤ p.2) → l.foldl pyMaxStep p = p := by
  induction l with
  | nil => intro p _; rfl
  | cons q t ih =>
      intro p h
      rw [List.foldl_cons]
      have hq : pyMaxStep p q = p := by
        unfold pyMaxStep
        rw [if_neg (not_lt.mpr (h q (List.mem_cons_self _ _)))]
      rw [hq]
      exact ih p (fun x hx => h x (List.mem_cons_of_mem _ hx))

/-- Scanning strictly smaller elements, then the first maximum, then
dominated elements, yields that first maximum. -/
theorem foldl_pyMaxStep_reach (l₁ : List (String × ℚ)) :
    ∀ (x p : String × ℚ) (l₂ : List (String × ℚ)), x.2 < p.2 →
      (∀ y ∈ l₁, y.2 < p.2) → (∀ z ∈ l₂, z.2 ≤ p.2) →
      (l₁ ++ p :: l₂).foldl pyMaxStep x = p := by
  induction l₁ with
  | nil =>
      intro x p l₂ hx _ hl₂
      rw [List.nil_append, List.foldl_cons]
      have hstep : pyMaxStep x p = p := by
        unfold pyMaxStep
        rw [if_pos hx]
      rw [hstep]
      exact foldl_pyMaxStep_keep l₂ p hl₂
  | cons y t ih =>
      intro x p l₂ hx hl₁ hl₂
      rw [List.cons_append, List.foldl_cons]
      have hy : (pyMaxStep x y).2 < p.2 := by
        rcases pyMaxStep_eq_or x y with h | h <;> rw [h]
        · exact hx
        · exact hl₁ y (List.mem_cons_self _ _)
      exact ih (pyMaxStep x y) p l₂ hy (fun z hz => hl₁ z (List.mem_cons_of_mem _ hz)) hl₂

/-- CPython's `max` with a key returns the FIRST element attaining the
maximum key: decomposing the list around such an element characterizes the
result. -/
theorem pyMaxBySnd_first (l₁ : List (String × ℚ)) (p : String × ℚ)
    (l₂ : List (String × ℚ))
    (hl₁ : ∀ x ∈ l₁, x.2 < p.2)
    (hle : ∀ q ∈ l₁ ++ p :: l₂, q.2 ≤ p.2) :
    pyMaxBySnd (l₁ ++ p :: l₂) = some p := by
  cases l₁ with
  | nil =>
      rw [List.nil_append]
      show some (l₂.foldl pyMaxStep p) = some p
      rw [foldl_pyMaxStep_keep l₂ p
        (fun z hz => hle z (List.mem_cons_of_mem _ hz))]
  | cons x t =>
      rw [List.cons_append]
      show some ((t ++ p :: l₂).foldl pyMaxStep x) = some p
      rw [foldl_pyMaxStep_reach t x p l₂ (hl₁ x (List.mem_cons_self _ _))
        (fun y hy => hl₁ y (List.mem_cons_of_mem _ hy))
        (fun z hz => hle z (by
          rw [List.cons_append]
          exact List.mem_cons_of_mem _ (List.mem_append_right t (List.mem_cons_of_mem _ hz))))]

/-- The name component of the decision on a non-empty map: the fallback when
the best score is strictly below the dynamic threshold, else the best
entry's name. -/
theorem route_on_sims_cons_name (s : RouterState) (q : String × ℚ)
    (rest : List (String × ℚ)) :
    (route_query_on_sims s (q :: rest)).1 =
      if (rest.foldl pyMaxStep q).2 < (calculate_dynamic_threshold s (q :: rest)).1
      then default_adapter_name else (rest.foldl pyMaxStep q).1 := by
  simp only [route_query_on_sims, pyMaxBySnd]
  split <;> rfl

/-- The similarity map reported by the decision always carries the synthetic
fallback entry. -/
theorem route_on_sims_simsOut (s : RouterState) (sims : List (String × ℚ)) :
    (route_query_on_sims s sims).2.1 = dictSet sims default_adapter_name 0 := by
  cases sims with
  | nil => rfl
  | cons q rest =>
      simp only [route_query_on_sims, pyMaxBySnd]
      split <;> rfl

/-- Dict assignment never produces an empty dict. -/
theorem dictSet_ne_nil (l : List (String × ℚ)) (k : String) (v : ℚ) :
    dictSet l k v ≠ [] := by
  unfold dictSet
  split
  · rename_i h
    cases l with
    | nil => simp at h
    | cons p t => simp
  · cases l <;> simp

/-- Full characterization of the decision's name component, on an arbitrary
similarity map whose keys avoid the fallback name. -/
theorem route_decide_spec (s : RouterState) (sims : List (String × ℚ))
    (hb : ∀ p ∈ sims, p.1 ≠ default_adapter_name) :
    ((route_query_on_sims s sims).1 = default_adapter_name ↔
      (sims = [] ∨ ∀ p ∈ sims, p.2 < (calculate_dynamic_threshold s sims).1)) ∧
    ((route_query_on_sims s sims).1 ≠ default_adapter_name →
      ∃ sc, ((route_query_on_sims s sims).1, sc) ∈ sims ∧
        (∀ p ∈ sims, p.2 ≤ sc) ∧ (calculate_dynamic_threshold s sims).1 ≤ sc) := by
  cases sims with
  | nil => exact ⟨⟨fun _ => Or.inl rfl, fun _ => rfl⟩, fun h => absurd rfl h⟩
  | cons q rest =>
      have hbest_mem := foldl_pyMaxStep_mem rest q
      have hbest_ge := foldl_pyMaxStep_ge rest q
      by_cases hlt :
          (rest.foldl pyMaxStep q).2 < (calculate_dynamic_threshold s (q :: rest)).1
      · have hres : (route_query_on_sims s (q :: rest)).1 = default_adapter_name := by
          rw [route_on_sims_cons_name, if_pos hlt]
        refine ⟨?_, ?_⟩
        · rw [hres]
          exact iff_of_true rfl
            (Or.inr (fun p hp => lt_of_le_of_lt (hbest_ge p hp) hlt))
        · rw [hres]
          intro h
          exact absurd rfl h
      · have hres : (route_query_on_sims s (q :: rest)).1 = (rest.foldl pyMaxStep q).1 := by
          rw [route_on_sims_cons_name, if_neg hlt]
        have hbne : (rest.foldl pyMaxStep q).1 ≠ default_adapter_name := hb _ hbest_mem
        refine ⟨?_, ?_⟩
        · rw [hres]
          refine iff_of_false hbne ?_
          rintro (hnil | hall)
          · exact List.cons_ne_nil q rest hnil
          · exact absurd (hall _ hbest_mem) hlt
        · rw [hres]
          intro _
          refine ⟨(rest.foldl pyMaxStep q).2, ?_, hbest_ge, not_lt.mp hlt⟩
          rw [Prod.mk.eta]
          exact hbest_mem

/-!
## Claim C2 — the routing decision

The decision-time similarity map never contains the synthetic fallback entry
(it is added only afterwards, for logging), so "excluding the fallback
entry" is the hypothesis that no registered route usurps the reserved name
`"base"`; under it the decision is exactly as claimed.
-/

/-- Claim C2: for every query whose similarity map has no entry named
`"base"` (the registry never legitimately contains the reserved fallback
name), the decision returns the fallback exactly when the map is empty or
every score — equivalently the highest score — is strictly below the dynamic
threshold, and otherwise returns the name of a highest-scoring adapter. -/
theorem claim_C2 (sqrt : ℚ → ℚ) (embed : String → Vec) (s : RouterState)
    (query : String)
    (hb : ∀ p ∈ calculate_similarities sqrt embed s.route_embeddings query,
      p.1 ≠ default_adapter_name) :
    ((route_query_with_scores sqrt embed s query).1 = default_adapter_name ↔
      (calculate_similarities sqrt embed s.route_embeddings query = [] ∨
       ∀ p ∈ calculate_similarities sqrt embed s.route_embeddings query,
         p.2 < (calculate_dynamic_threshold s
           (calculate_similarities sqrt embed s.route_embeddings query)).1)) ∧
    ((route_query_with_scores sqrt embed s query).1 ≠ default_adapter_name →
      ∃ sc, ((route_query_with_scores sqrt embed s query).1, sc) ∈
          calculate_similarities sqrt embed s.route_embeddings query ∧
        (∀ p ∈ calculate_similarities sqrt embed s.route_embeddings query, p.2 ≤ sc) ∧
        (calculate_dynamic_threshold s
          (calculate_similarities sqrt embed s.route_embeddings query)).1 ≤ sc) :=
  route_decide_spec s (calculate_similarities sqrt embed s.route_embeddings query) hb

/-- Witness for claim C2 on a one-adapter registry. -/
theorem claim_C2_witness :
    (∀ p ∈ calculate_similarities wSqrt wEmbed wStateMath.route_embeddings "hi",
      p.1 ≠ default_adapter_name) ∧
    (((route_query_with_scores wSqrt wEmbed wStateMath "hi").1 = default_adapter_name ↔
      (calculate_similarities wSqrt wEmbed wStateMath.route_embeddings "hi" = [] ∨
       ∀ p ∈ calculate_similarities wSqrt wEmbed wStateMath.route_embeddings "hi",
         p.2 < (calculate_dynamic_threshold wStateMath
           (calculate_similarities wSqrt wEmbed wStateMath.route_embeddings "hi")).1)) ∧
    ((route_query_with_scores wSqrt wEmbed wStateMath "hi").1 ≠ default_adapter_name →
      ∃ sc, ((route_query_with_scores wSqrt wEmbed wStateMath "hi").1, sc) ∈
          calculate_similarities wSqrt wEmbed wStateMath.route_embeddings "hi" ∧
        (∀ p ∈ calculate_similarities wSqrt wEmbed wStateMath.route_embeddings "hi",
          p.2 ≤ sc) ∧
        (calculate_dynamic_threshold wStateMath
          (calculate_similarities wSqrt wEmbed wStateMath.route_embeddings "hi")).1 ≤ sc)) :=
  ⟨by simp [calculate_similarities, calculate_similarities_core, wStateMath,
      default_adapter_name],
   claim_C2 wSqrt wEmbed wStateMath "hi"
     (by simp [calculate_similarities, calculate_similarities_core, wStateMath,
       default_adapter_name])⟩

/-!
## Claim C7 — the registration-order tie-break
-/

/-- If the maximum selection picks `p` and `p` clears the threshold, the
decision returns `p`'s name. -/
theorem route_on_sims_name_of_max (s : RouterState) (sims : List (String × ℚ))
    (p : String × ℚ) (hmax_eq : pyMaxBySnd sims = some p)
    (hth : (calculate_dynamic_threshold s sims).1 ≤ p.2) :
    (route_query_on_sims s sims).1 = p.1 := by
  cases sims with
  | nil => cases hmax_eq
  | cons q rest =>
      have hp : rest.foldl pyMaxStep q = p := Option.some.inj hmax_eq
      rw [route_on_sims_cons_name, hp, if_neg (not_lt.mpr hth)]

/-- Claim C7: when the similarity map decomposes around an entry `p` that
every earlier (earlier-registered) entry scores strictly below and that no
entry scores above — in particular when several adapters tie at the exact
maximum — and `p` clears the dynamic threshold, the decision returns `p`'s
name: the earliest-registered maximum wins, deterministically. -/
theorem claim_C7 (sqrt : ℚ → ℚ) (embed : String → Vec) (s : RouterState)
    (query : String) (l₁ l₂ : List (String × ℚ)) (p : String × ℚ)
    (hdec : calculate_similarities sqrt embed s.route_embeddings query =
      l₁ ++ p :: l₂)
    (hearlier : ∀ x ∈ l₁, x.2 < p.2)
    (hmax : ∀ q ∈ l₁ ++ p :: l₂, q.2 ≤ p.2)
    (hth : (calculate_dynamic_threshold s (l₁ ++ p :: l₂)).1 ≤ p.2) :
    (route_query_with_scores sqrt embed s query).1 = p.1 := by
  unfold route_query_with_scores
  rw [hdec]
  exact route_on_sims_name_of_max s _ p (pyMaxBySnd_first l₁ p l₂ hearlier hmax) hth

/-- Witness for claim C7: adapters `"a"` and `"b"`, registered in that
order, tie at score 1; the decision returns the earlier-registered `"a"`. -/
theorem claim_C7_witness :
    (calculate_similarities wSqrt wEmbed wStateAB.route_embeddings "hi" =
      [] ++ ("a", 1) :: [("b", 1)]) ∧
    (∀ x ∈ ([] : List (String × ℚ)), x.2 < ((("a", 1) : String × ℚ)).2) ∧
    (∀ q ∈ [] ++ (("a", (1 : ℚ))) :: [("b", 1)], q.2 ≤ ((("a", 1) : String × ℚ)).2) ∧
    ((calculate_dynamic_threshold wStateAB ([] ++ ("a", 1) :: [("b", 1)])).1 ≤
      ((("a", 1) : String × ℚ)).2) ∧
    (route_query_with_scores wSqrt wEmbed wStateAB "hi").1 = "a" :=
  ⟨by norm_num [calculate_similarities, calculate_similarities_core,
      calculate_cosine_similarity, dotProduct, normSq, wSqrt, wEmbed, listMean,
      wStateAB, List.filterMap],
   by simp,
   by norm_num,
   by norm_num [calculate_dynamic_threshold, listMean, score_window, wStateAB],
   claim_C7 wSqrt wEmbed wStateAB "hi" [] [("b", 1)] ("a", 1)
     (by norm_num [calculate_similarities, calculate_similarities_core,
        calculate_cosine_similarity, dotProduct, normSq, wSqrt, wEmbed, listMean,
        wStateAB, List.filterMap])
     (by simp)
     (by norm_num)
     (by norm_num [calculate_dynamic_threshold, listMean, score_window, wStateAB])⟩

/-!
## Claim C8 — one history push per routed query

`generate_response` first routes (one push inside
`route_query_with_scores`), and then, when verbose, `_log_routing_decision`
calls `calculate_dynamic_threshold` a second time on the reported map —
which now carries the synthetic `"base": 0.0` entry — so a verbose system
pushes twice per routed query.
-/

/-- The router state after `generate_response`, on every control path: the
routing update, plus the logging re-computation when verbose. -/
theorem gen_resp_router (sqrt : ℚ → ℚ) (embedE : String → Except PyError Vec)
    (response : String) (st : SystemState) (query : String) :
    ((generate_response sqrt embedE response st query).1).router =
      (match route_query_with_scoresE sqrt embedE st.router query with
       | Except.error _ => st.router
       | Except.ok t => if st.verbose then log_routing_decision t.2.2 t.2.1 else t.2.2) := by
  simp only [generate_response]
  cases hr : route_query_with_scoresE sqrt embedE st.router query with
  | error e => rfl
  | ok t =>
      obtain ⟨name, sims, r1⟩ := t
      dsimp only
      split
      · split
        · rfl
        · rfl
      · cases hsa : set_active_adapter st.loaded_adapters name with
        | error e => rfl
        | ok u => rfl

/-- Claim C8, counterexample: a verbose system handling one routed query
from an empty history ends with TWO entries in the history (the routing push
`1` and the logging push `mean(1, 0) = 1/2`), not the single push the claim
requires. -/
theorem claim_C8_counterexample :
    ((generate_response wSqrt (fun q => Except.ok (wEmbed q)) "resp" wSysA "hi").1).router.historical_scores =
      [1, 1/2] ∧
    ([(1 : ℚ), 1/2].length ≠ 1) := by
  have h1 : route_query_with_scoresE wSqrt (fun q => Except.ok (wEmbed q)) wStateA "hi" =
      Except.ok ("a", [("a", 1), ("base", 0)],
        { base_threshold := 0, route_embeddings := [("a", [[1]])], historical_scores := [1] }) := by
    norm_num [route_query_with_scoresE, calculate_similaritiesE, calculate_similarities_core,
      wEmbed, wSqrt, wStateA, route_query_on_sims, pyMaxBySnd, pyMaxStep,
      calculate_dynamic_threshold, listMean, score_window, dictSet, default_adapter_name,
      calculate_cosine_similarity, dotProduct, normSq, List.foldl, List.filterMap]
    decide
  have h2 : log_routing_decision
      { base_threshold := 0, route_embeddings := [("a", [[1]])], historical_scores := [1] }
      [("a", 1), ("base", 0)] =
      { base_threshold := 0, route_embeddings := [("a", [[1]])], historical_scores := [1, 1/2] } := by
    norm_num [log_routing_decision, calculate_dynamic_threshold, listMean, score_window]
  refine ⟨?_, by simp⟩
  simp only [generate_response, wSysA, h1, h2, default_adapter_name]
  rw [if_neg (by decide : ¬ ("a" = "base"))]
  simp [set_active_adapter]

/-- Claim C8, amended: per routed query with a non-empty similarity map, the
history receives the routing push always, and a SECOND push from
`_log_routing_decision` exactly when verbose logging is on — the second push
averaging in the synthetic `"base": 0.0` entry; only a non-verbose system
performs exactly one push per query. -/
theorem claim_C8 (sqrt : ℚ → ℚ) (embed : String → Vec) (response : String)
    (st : SystemState) (query : String)
    (hlen : st.router.historical_scores.length ≤ score_window)
    (hne : calculate_similarities sqrt embed st.router.route_embeddings query ≠ []) :
    ((generate_response sqrt (fun q => Except.ok (embed q)) response st query).1).router.historical_scores =
      (if st.verbose then
        lastN score_window
          ((lastN score_window (st.router.historical_scores ++
             [listMean ((calculate_similarities sqrt embed st.router.route_embeddings query).map Prod.snd)])) ++
           [listMean ((dictSet (calculate_similarities sqrt embed st.router.route_embeddings query)
              default_adapter_name 0).map Prod.snd)])
       else
        lastN score_window (st.router.historical_scores ++
          [listMean ((calculate_similarities sqrt embed st.router.route_embeddings query).map Prod.snd)])) := by
  have hroute : route_query_with_scoresE sqrt (fun q => Except.ok (embed q)) st.router query =
      Except.ok (route_query_on_sims st.router
        (calculate_similarities sqrt embed st.router.route_embeddings query)) := rfl
  rw [gen_resp_router, hroute]
  dsimp only
  by_cases hv : st.verbose
  · rw [if_pos hv, if_pos hv]
    rw [route_on_sims_state, route_on_sims_simsOut]
    unfold log_routing_decision
    rw [thresh_push st.router _ hne hlen]
    dsimp only
    rw [thresh_push _ _ (dictSet_ne_nil _ _ _) (lastN_length_le _ _)]
  · rw [if_neg hv, if_neg hv]
    rw [route_on_sims_state]
    rw [thresh_push st.router _ hne hlen]

/-- Witness for the amended claim C8 on the verbose one-adapter system. -/
theorem claim_C8_witness :
    (wSysA.router.historical_scores.length ≤ score_window) ∧
    (calculate_similarities wSqrt wEmbed wSysA.router.route_embeddings "hi" ≠ []) ∧
    ((generate_response wSqrt (fun q => Except.ok (wEmbed q)) "resp" wSysA "hi").1).router.historical_scores =
      (if wSysA.verbose then
        lastN score_window
          ((lastN score_window (wSysA.router.historical_scores ++
             [listMean ((calculate_similarities wSqrt wEmbed wSysA.router.route_embeddings "hi").map Prod.snd)])) ++
           [listMean ((dictSet (calculate_similarities wSqrt wEmbed wSysA.router.route_embeddings "hi")
              default_adapter_name 0).map Prod.snd)])
       else
        lastN score_window (wSysA.router.historical_scores ++
          [listMean ((calculate_similarities wSqrt wEmbed wSysA.router.route_embeddings "hi").map Prod.snd)])) :=
  ⟨by decide,
   by simp [calculate_similarities, calculate_similarities_core, wSysA, wStateA],
   claim_C8 wSqrt wEmbed "resp" wSysA "hi" (by decide)
     (by simp [calculate_similarities, calculate_similarities_core, wSysA, wStateA])⟩

end MixtureAdapters
